import Mathlib

/-!
Shallow embedding of `src/render.js` (mbgl-renderer): the URL resolver, the
local-archive (mbtiles) adapter, the remote fetch adapter, the request
dispatcher, the viewport derivation and the render orchestrator, together
with theorems settling the frozen claims about them.

Strings are modelled by Lean `String` (a wrapper around `List Char`); the
JavaScript string builtins used by the source (`split`, `startsWith`, the
fixed tile regular expression) are embedded as explicit structural
functions on `List Char` so that every theorem is provable and every
witness evaluates by `decide` or `rfl`.  JavaScript numbers are modelled by
`ℤ`: on the code paths under study the source applies only order
comparisons, subtraction, `Math.max` and truthiness tests to numbers, all
of which restrict faithfully to the integers, and no claim depends on a
fractional or non-finite value.  Callback-style effects are modelled by explicit
result values; the external collaborators (the mbtiles store, the HTTP
transport, the rendering engine, the image encoder and the geo-viewport
library) are parameters or environment records supplied to the embedded
functions.
-/

namespace MbglRenderer

/-! ### JavaScript string primitives -/

/-- Character list of the literal `"mbtiles://"`, the local-archive URL
scheme prefix used throughout `src/render.js`. -/
def schemeChars : List Char := ['m', 'b', 't', 'i', 'l', 'e', 's', ':', '/', '/']

/-- Embeds `pre.every((c, i) => s[i] === c)`, i.e. the test that `s` starts
with the character sequence `pre`; used to model `url.startsWith("mbtiles://")`
(line 210 of the source). -/
def startsWithChars : List Char → List Char → Bool
  | [], _ => true
  | _ :: _, [] => false
  | p :: ps, c :: cs => p == c && startsWithChars ps cs

/-- Models `url.startsWith("mbtiles://")` from the dispatcher (line 210). -/
def isMBTilesURL (url : String) : Bool := startsWithChars schemeChars url.data

/-- Strips an expected character sequence from the front of a list,
returning the remainder; `none` when the list does not start with it. -/
def stripChars : List Char → List Char → Option (List Char)
  | [], l => some l
  | _ :: _, [] => none
  | p :: ps, c :: cs => if p = c then stripChars ps cs else none

/-- Embeds the JavaScript builtin `s.split("://")` (used by
`resolveNamefromURL`, line 16 of the source): splits at every
non-overlapping occurrence of the three-character separator `://`,
scanning left to right.  `cur` is the reversed accumulator of the piece
being read. -/
def splitScheme (cur : List Char) : List Char → List (List Char)
  | [] => [cur.reverse]
  | ':' :: '/' :: '/' :: r2 => cur.reverse :: splitScheme [] r2
  | c :: rest => splitScheme (c :: cur) rest

/-- Embeds the JavaScript builtin `s.split("/")` (used by
`resolveNamefromURL`, line 16 of the source). -/
def splitSlash (cur : List Char) : List Char → List (List Char)
  | [] => [cur.reverse]
  | c :: rest =>
    if c = '/' then cur.reverse :: splitSlash [] rest
    else splitSlash (c :: cur) rest

/-! ### URL Resolver (source lines 9-25) -/

/-- Embeds `resolveNamefromURL` (line 16):
`url => url.split("://")[1].split("/")[0]`.
In JavaScript, when the URL contains no `://` the index `[1]` is
`undefined` and the subsequent `.split` throws a `TypeError`; that failure
is modelled by `none`. -/
def resolveNamefromURL (url : String) : Option String :=
  match splitScheme [] url.data with
  | _ :: second :: _ => some ⟨(splitSlash [] second).headD []⟩
  | _ => none

/-- Embeds Node's `path.format({ root, name, ext })` as called on line 25:
with a `root` (and no `dir`) Node concatenates `root`, `name` and `ext`
verbatim, inserting no separator (callers pass a base path ending in a
path separator). -/
def pathFormat (root name ext : String) : String := root ++ name ++ ext

/-- Embeds `resolveMBTilesURL` (line 25):
`path.format({ root: tilePath, name: resolveNamefromURL(url), ext: ".mbtiles" })`.
A pure join of the configured base directory, the service name and the
fixed `.mbtiles` extension; no filesystem access is performed. -/
def resolveMBTilesURL (tilePath url : String) : Option String :=
  (resolveNamefromURL url).map (fun n => pathFormat tilePath n ".mbtiles")

/-! ### The tile URL regular expression (source line 9)

`TILE_REGEXP = RegExp("mbtiles://([^/]+)/(\\d+)/(\\d+)/(\\d+)")` and its
use `url.match(TILE_REGEXP)` in `getTile` (line 79).  For this particular
pattern greedy matching never needs to backtrack: `[^/]+` is a maximal run
of non-slash characters (the following pattern character is a slash, which
no shorter run can expose earlier), and each `\d+` is a maximal digit run
for the same reason.  An unanchored JavaScript match tries successive start
positions left to right; `searchMatch` does the same. -/

/-- Raw captures of the tile regular expression: service name and the
z, x, y digit runs, as character lists. -/
structure RawTileMatch where
  service : List Char
  z : List Char
  x : List Char
  y : List Char
deriving DecidableEq

/-- Attempts to match `mbtiles://([^/]+)/(\d+)/(\d+)/(\d+)` starting
exactly at the head of the list. -/
def matchFrom (l : List Char) : Option RawTileMatch :=
  match stripChars schemeChars l with
  | none => none
  | some r1 =>
    let s := r1.takeWhile (fun c => c != '/')
    match r1.dropWhile (fun c => c != '/') with
    | '/' :: r3 =>
      if s.isEmpty then none
      else
        let z := r3.takeWhile Char.isDigit
        match r3.dropWhile Char.isDigit with
        | '/' :: r5 =>
          if z.isEmpty then none
          else
            let x := r5.takeWhile Char.isDigit
            match r5.dropWhile Char.isDigit with
            | '/' :: r7 =>
              if x.isEmpty then none
              else
                let y := r7.takeWhile Char.isDigit
                if y.isEmpty then none else some ⟨s, z, x, y⟩
            | _ => none
        | _ => none
    | _ => none

/-- Unanchored search: the leftmost start position at which `matchFrom`
succeeds, as a JavaScript regular expression match does. -/
def searchMatch : List Char → Option RawTileMatch
  | [] => none
  | c :: cs =>
    match matchFrom (c :: cs) with
    | some m => some m
    | none => searchMatch cs

/-- String-level captures of the tile regular expression, in the order the
source consumes them: `matches.slice(matches.length - 3)` yields the
`z`, `x`, `y` capture groups (as strings); the service capture is unused by
`getTile` but recorded here. -/
structure TileMatch where
  service : String
  z : String
  x : String
  y : String
deriving DecidableEq

/-- Embeds `url.match(TILE_REGEXP)` (line 79): `none` models the JavaScript
`null` result. -/
def tileURLMatch (url : String) : Option TileMatch :=
  (searchMatch url.data).map (fun m => ⟨⟨m.service⟩, ⟨m.z⟩, ⟨m.x⟩, ⟨m.y⟩⟩)

/-! ### JavaScript error objects, dates, truthiness -/

/-- JavaScript error values observable from this module: `error` models
`new Error(message)`, `typeError` a `TypeError` raised by accessing a
property of `null`/`undefined`, `syntaxError` the exception thrown by the
`JSON.parse` builtin on malformed input, and `ext` an opaque error object
delivered by an external callback (archive open, archive query, HTTP
transport). -/
inductive JsError where
  | error (message : String)
  | typeError (message : String)
  | syntaxError (message : String)
  | ext (tag : String)
deriving DecidableEq

/-- Rendering of an error for `console.error` output lines. -/
def JsError.text : JsError → String
  | .error m => "Error: " ++ m
  | .typeError m => "TypeError: " ++ m
  | .syntaxError m => "SyntaxError: " ++ m
  | .ext t => t

/-- Models `new Date(s)`: the timestamp value is kept abstract as the
string it was parsed from (the source never inspects the parsed value,
it only stores it in the result record). -/
structure JsDate where
  raw : String
deriving DecidableEq

/-- JavaScript truthiness filter on an optional header string: an absent
header and an empty-string header are both falsy, so
`if (res.headers.x) ...` acts only on present, non-empty values. -/
def truthyStr : Option String → Option String
  | some s => if s = "" then none else some s
  | none => none

/-! ### A fragment of the `JSON.parse` builtin

The non-200 branch of `getRemoteTile` (line 142) evaluates
`JSON.parse(body).message`.  `JSON.parse` is a JavaScript builtin, not
code of this repository; it is embedded here restricted to flat objects
with escape-free string keys and values — the shape the spec assumes for
error bodies ("assume the body is JSON with that shape").  Every input
outside the fragment is reported as a parse failure, modelling a thrown
`SyntaxError`; theorems about the non-200 path are therefore stated only
for bodies this fragment accepts. -/

/-- Skips JSON whitespace. -/
def jsonSkipWs (l : List Char) : List Char :=
  l.dropWhile (fun c => c == ' ' || c == '\n' || c == '\t' || c == '\r')

/-- Parses a JSON string literal (no escape sequences) at the head of the
list, returning the contents and the remainder. -/
def jsonString : List Char → Option (String × List Char)
  | '"' :: rest =>
    let s := rest.takeWhile (fun c => c != '"')
    if s.any (fun c => c == '\\') then none
    else
      match rest.dropWhile (fun c => c != '"') with
      | '"' :: r => some (⟨s⟩, r)
      | _ => none
  | _ => none

/-- Parses a non-empty comma-separated sequence of `"key": "value"` pairs
followed by a closing brace, consuming through the brace.  `fuel` bounds
the recursion (the caller passes the input length, which suffices since
every pair consumes at least one character). -/
def jsonPairs : Nat → List Char → Option (List (String × String) × List Char)
  | 0, _ => none
  | fuel + 1, l =>
    match jsonString (jsonSkipWs l) with
    | none => none
    | some (k, r1) =>
      match jsonSkipWs r1 with
      | ':' :: r2 =>
        match jsonString (jsonSkipWs r2) with
        | none => none
        | some (v, r3) =>
          match jsonSkipWs r3 with
          | ',' :: r4 => (jsonPairs fuel r4).map (fun p => ((k, v) :: p.1, p.2))
          | '}' :: r4 => some ([(k, v)], r4)
          | _ => none
      | _ => none

/-- Parses a whole body as a flat JSON object of string values; `none`
models a `SyntaxError` thrown by `JSON.parse`. -/
def jsonFlatParse (body : String) : Option (List (String × String)) :=
  match jsonSkipWs body.data with
  | '{' :: r =>
    match jsonSkipWs r with
    | '}' :: r2 => if jsonSkipWs r2 = [] then some [] else none
    | _ =>
      match jsonPairs (r.length + 1) r with
      | some (kvs, rest) => if jsonSkipWs rest = [] then some kvs else none
      | none => none
  | _ => none

/-- JavaScript object property lookup on a parsed JSON object: with
duplicate keys `JSON.parse` keeps the last occurrence. -/
def objGet (k : String) (kvs : List (String × String)) : Option String :=
  ((kvs.filter (fun p => p.1 == k)).getLast?).map (fun p => p.2)

/-- Decidable equality for `Except` results, used to evaluate witnesses. -/
instance {ε α : Type} [DecidableEq ε] [DecidableEq α] : DecidableEq (Except ε α) := fun x y =>
  match x, y with
  | .ok a, .ok b => if h : a = b then .isTrue (by rw [h]) else .isFalse (by simp [h])
  | .error a, .error b => if h : a = b then .isTrue (by rw [h]) else .isFalse (by simp [h])
  | .ok _, .error _ => .isFalse (by simp)
  | .error _, .ok _ => .isFalse (by simp)

/-- Embeds `JSON.parse(body).message` as evaluated on line 142.  A parse
failure is a thrown `SyntaxError`; a parsed object without a `message`
property gives `new Error(undefined)`, whose message is the empty
string. -/
def jsonMessage (body : String) : Except JsError String :=
  match jsonFlatParse body with
  | some kvs =>
    match objGet "message" kvs with
    | some v => .ok v
    | none => .ok ""
  | none => .error (.syntaxError "Unexpected token in JSON")

/-! ### Callback observations

The rendering engine hands every resource request to the dispatcher
together with a callback `(err, data) => ...`.  What the engine can
observe of one dispatch is: whether the callback was invoked, and with
which error or result value; additionally the process log receives
diagnostic lines, and an exception may escape.  These observations are the
results of the embedded adapter functions. -/

/-- The info record returned by `mbtiles.getInfo` (line 44), as
destructured by `getTileJSON` (lines 50-52). -/
structure ArchiveInfo where
  minzoom : ℤ
  maxzoom : ℤ
  center : List ℤ
  bounds : List ℤ
deriving DecidableEq

/-- The TileJSON document synthesized by `getTileJSON` (lines 54-61),
kept structured rather than serialized (the source serializes it with
`JSON.stringify` and wraps it in a `Buffer`; no claim inspects the
serialization). -/
structure TileJSONDoc where
  tilejson : String
  tiles : List String
  minzoom : ℤ
  maxzoom : ℤ
  center : List ℤ
  bounds : List ℤ
deriving DecidableEq

/-- Payload of the `data` member of a callback result: raw tile bytes
(modelled as a string) or the TileJSON buffer. -/
inductive CbData where
  | bytes (s : String)
  | tileJSON (d : TileJSONDoc)
deriving DecidableEq

/-- The result object passed as the callback's second argument.  All
members are optional: `callback(null, {})` on a failed tile lookup (line
92) passes an object with no `data` member at all. -/
structure CbValue where
  data : Option CbData := none
  modified : Option JsDate := none
  expires : Option JsDate := none
  etag : Option String := none
deriving DecidableEq

/-- What the engine's callback observes from one dispatched request. -/
inductive CbOutcome where
  /-- The callback was never invoked (unhandled request kinds). -/
  | notInvoked
  /-- `callback(err)`: an error was delivered. -/
  | err (e : JsError)
  /-- `callback(null, v)`: a result was delivered. -/
  | ok (v : CbValue)
  /-- An exception escaped from an asynchronously-invoked callback
  (outside the dispatcher's `try`), reaching the process uncaught. -/
  | thrownAsync (e : JsError)
deriving DecidableEq

/-- Full observable behaviour of one adapter invocation.  `syncThrow`
records an exception raised in the synchronous prefix of the adapter
(before any asynchronous work), which the dispatcher's `try`/`catch`
(lines 212, 230-233) converts into a callback error; `logs` records
console output lines in order. -/
structure AdapterRun where
  syncThrow : Option JsError := none
  outcome : CbOutcome := .notInvoked
  logs : List String := []
deriving DecidableEq

/-- Observable outcome of the HTTP request issued by `getRemoteTile`
(lines 116-121): a transport-level error, or a response with status,
the three headers the source reads (`modified`, `expires`, `etag`) and a
body. -/
inductive HttpResp where
  | transportErr (e : JsError)
  | response (status : Nat) (modified expires etag : Option String) (body : String)
deriving DecidableEq

/-- Environment of external collaborators: the mbtiles store (open,
info query, single-tile query — the store receives the z, x, y regex
captures as strings, exactly as the source passes them on line 89) and the
HTTP transport.  Each field maps the inputs the source passes to the
observable outcome the external system delivers to its callback. -/
structure Env where
  openErr : String → Option JsError
  info : String → Except JsError ArchiveInfo
  tile : String → String → String → String → Except JsError String
  http : String → HttpResp

/-! ### Local Archive Adapter (source lines 34-107) -/

/-- Embeds `getTileJSON` (lines 34-69).  The synchronous prefix resolves
the archive file name and service name (both throw a `TypeError` when the
URL lacks `://`); then the archive is opened (`new MBTiles`, line 38: an
open error is delivered to the callback), its info record queried (line
44: a query error is delivered to the callback), and on success a
TileJSON document whose `tiles` template reuses the mbtiles scheme and
service name is delivered as the result. -/
def getTileJSONModel (env : Env) (tilePath url : String) : AdapterRun :=
  match resolveMBTilesURL tilePath url, resolveNamefromURL url with
  | some file, some service =>
    match env.openErr file with
    | some e => { outcome := .err e }
    | none =>
      match env.info file with
      | .error e => { outcome := .err e }
      | .ok i =>
        { outcome := .ok { data := some (.tileJSON
            { tilejson := "1.0.0"
              tiles := ["mbtiles://" ++ service ++ "/{z}/{x}/{y}"]
              minzoom := i.minzoom
              maxzoom := i.maxzoom
              center := i.center
              bounds := i.bounds }) } }
  | _, _ => { syncThrow := some (.typeError "Cannot read properties of undefined") }

/-- The diagnostic line `getTile` logs when a single-tile lookup fails
(line 91). -/
def tileErrorLog (z x y file : String) : String :=
  "error fetching tile: z:" ++ z ++ " x:" ++ x ++ " y:" ++ y ++ " from " ++ file

/-- Embeds `getTile` (lines 78-107).  The synchronous prefix matches the
tile regular expression — a URL without the trailing z/x/y triple makes
`url.match` return `null`, and the subsequent `matches.slice` throws a
`TypeError` — and resolves the archive file path.  Then the archive is
opened (line 83: an open error is delivered to the callback as an error),
and the single tile queried (line 89).  A tile query failure is NOT an
error: the source logs a diagnostic identifying z, x, y and the archive
path and invokes `callback(null, {})` (lines 91-92); on success the tile
bytes are delivered as `callback(null, { data })` (line 96). -/
def getTileModel (env : Env) (tilePath url : String) : AdapterRun :=
  match tileURLMatch url with
  | none => { syncThrow := some (.typeError "Cannot read properties of null") }
  | some m =>
    match resolveMBTilesURL tilePath url with
    | none => { syncThrow := some (.typeError "Cannot read properties of undefined") }
    | some file =>
      match env.openErr file with
      | some e => { outcome := .err e }
      | none =>
        match env.tile file m.z m.x m.y with
        | .error _ => { outcome := .ok {}, logs := [tileErrorLog m.z m.x m.y file] }
        | .ok data => { outcome := .ok { data := some (.bytes data) } }

/-! ### Remote Fetch Adapter (source lines 115-146) -/

/-- Embeds `getRemoteTile` (lines 115-146).  A transport error is passed
to the callback unchanged (line 124).  A 200 response yields a result
whose `data` is the raw body and whose `modified`, `expires`, `etag`
members are populated from the same-named response headers — the source
guards each with a JavaScript truthiness test (lines 128-136), so an
empty-string header is skipped — with `modified`/`expires` wrapped in
`new Date(...)` and `etag` copied verbatim.  Any other status evaluates
`new Error(JSON.parse(body).message)` (line 142): a parse failure throws
inside the asynchronously-invoked response callback, escaping uncaught. -/
def getRemoteTileModel (resp : HttpResp) : AdapterRun :=
  match resp with
  | .transportErr e => { outcome := .err e }
  | .response status modified expires etag body =>
    if status = 200 then
      { outcome := .ok
          { data := some (.bytes body)
            modified := (truthyStr modified).map JsDate.mk
            expires := (truthyStr expires).map JsDate.mk
            etag := truthyStr etag } }
    else
      match jsonMessage body with
      | .ok msg => { outcome := .err (.error msg) }
      | .error e => { outcome := .thrownAsync e }

/-! ### Request Dispatcher (source lines 207-235) -/

/-- Which backend adapters a dispatch entered (instrumentation recording
the function invocations the source performs while routing). -/
inductive Adapter where
  | localMetadata
  | localTile
  | remoteTile
deriving DecidableEq

/-- The dispatcher's `try`/`catch` (lines 212, 230-233): an exception
raised synchronously while routing is logged via `console.error` and
converted into a callback error rather than propagating into the engine.
Asynchronously-raised exceptions are outside the `try` and unaffected. -/
def catchSync (r : AdapterRun) : AdapterRun :=
  match r.syncThrow with
  | some e => { outcome := .err e, logs := r.logs ++ [JsError.text e] }
  | none => r

/-- Embeds `mapOptions.request` (lines 208-234): classify the URL by the
`mbtiles://` prefix, switch on the request kind (`2` = source metadata,
`3` = tile, every other kind falls through the `switch` without invoking
any callback), and run the selected adapter under the `try`/`catch`.
Returns the adapter observation together with the list of adapters
entered. -/
def dispatch (env : Env) (tilePath url : String) (kind : Nat) : AdapterRun × List Adapter :=
  if kind = 2 then
    if isMBTilesURL url then (catchSync (getTileJSONModel env tilePath url), [.localMetadata])
    else ({}, [])
  else if kind = 3 then
    if isMBTilesURL url then (catchSync (getTileModel env tilePath url), [.localTile])
    else (catchSync (getRemoteTileModel (env.http url)), [.remoteTile])
  else ({}, [])

/-! ### Viewport Calculator (source lines 197-203)

The exact-fit computation is delegated by the source to the external
`@mapbox/geo-viewport` library (`geoViewport.viewport(bounds, [width,
height])`, line 199); the source itself only applies the margin
`Math.max(viewport.zoom - 1, 0)` and passes the center through.  The
library is therefore a parameter `gv` of the embedded functions; a
concrete executable stand-in, modelled from the spec, is provided below
for witnesses and counterexamples. -/

/-- The `{zoom, center}` record returned by `geoViewport.viewport`. -/
structure GVResult where
  zoom : ℤ
  center : List ℤ
deriving DecidableEq

/-- Type of the external viewport-fitting library: bounds (a
`[west, south, east, north]` array) and pixel dimensions to a fitted
viewport. -/
abbrev GVFun := List ℤ → ℤ × ℤ → GVResult

/-- Embeds lines 199-202 of the source: take the library's fitted
viewport, return zoom one level coarser clamped at zero
(`Math.max(viewport.zoom - 1, 0)`) and the library's center unchanged.
The derivation is a pure function: determinism and absence of side
effects are intrinsic to the embedding, mirroring the source, which only
reads its arguments. -/
def deriveViewport (gv : GVFun) (b : List ℤ) (w h : ℤ) : GVResult :=
  { zoom := max ((gv b (w, h)).zoom - 1) 0, center := (gv b (w, h)).center }

/-- Modelled from the spec: the external `@mapbox/geo-viewport` library is
not part of this repository.  Per spec section 4.4 it "computes the
maximal zoom level at which the box fits within the dimensions and the
geographic center of that fitted view, using standard slippy-map
tile-pixel geometry".  This executable model checks, for each integer
zoom in the library's default range, whether the world-fraction spans of
the box fit in the given pixel dimensions at 256 pixels per tile (the
latitude span uses a linear approximation of the projection, adequate for
the witnesses below), and returns the largest fitting zoom with the
geographic midpoint of the box.  The fit tests are stated multiplicatively
(span over world span times world pixels at zoom `z` bounded by the pixel
dimension) to stay in integer arithmetic. -/
def gvFits (b : List ℤ) (w h : ℤ) (z : ℕ) : Bool :=
  let west := b.getD 0 0
  let south := b.getD 1 0
  let east := b.getD 2 0
  let north := b.getD 3 0
  decide ((2 ^ z * 256 : ℤ) * (east - west) ≤ w * 360) &&
    decide ((2 ^ z * 256 : ℤ) * (north - south) ≤ h * 180)

/-- Modelled from the spec: largest fitting zoom in the default range
0..20 (see `gvFits`). -/
def gvZoom (b : List ℤ) (w h : ℤ) : ℕ :=
  ((List.range 21).filter (gvFits b w h)).foldr max 0

/-- Modelled from the spec: executable stand-in for
`geoViewport.viewport` (see `gvFits`). -/
def geoViewportModel : GVFun := fun b d =>
  { zoom := (gvZoom b d.1 d.2 : ℤ)
    center := [(b.getD 0 0 + b.getD 2 0) / 2, (b.getD 1 0 + b.getD 3 0) / 2] }

/-- The point `c = [lng, lat]` lies within the bounding box
`b = [west, south, east, north]`. -/
def centerWithin (c b : List ℤ) : Prop :=
  b.getD 0 0 ≤ c.getD 0 0 ∧ c.getD 0 0 ≤ b.getD 2 0 ∧
    b.getD 1 0 ≤ c.getD 1 0 ∧ c.getD 1 0 ≤ b.getD 3 0

instance (c b : List ℤ) : Decidable (centerWithin c b) := by
  unfold centerWithin; infer_instance

/-! ### Render Orchestrator (source lines 162-257) -/

/-- The style document is opaque to this subsystem (consumed only by the
external rendering engine). -/
structure Style where
  doc : String
deriving DecidableEq

/-- The `options` object of `render` (lines 163-164) with its four
destructured members, each defaulting to `null`. -/
structure RenderOptions where
  center : Option (List ℤ) := none
  zoom : Option ℤ := none
  bounds : Option (List ℤ) := none
  tilePath : Option String := none
deriving DecidableEq

/-- The validation errors `render` throws (lines 166-195), one
constructor per `throw new Error(...)` site, carrying the value the
source interpolates into the message. -/
inductive RenderError where
  | styleRequired
  | widthHeightRequired
  | centerNotPair (c : List ℤ)
  | lngOutOfRange (v : ℤ)
  | latOutOfRange (v : ℤ)
  | zoomOutOfRange (v : ℤ)
  | boundsNotQuad (b : List ℤ)
deriving DecidableEq

/-- The message template of each validation error, as written in the
source; the interpolated suffix (the offending value) is elided, so each
rendered message is this template followed by a value rendering — the
templates alone already distinguish the errors. -/
def RenderError.message : RenderError → String
  | .styleRequired => "style is a required parameter"
  | .widthHeightRequired => "width and height are required parameters and must be non-zero"
  | .centerNotPair _ => "Center must be longitude,latitude.  Invalid value found: "
  | .lngOutOfRange _ => "Center longitude is outside world bounds (-180 to 180 deg): "
  | .latOutOfRange _ => "Center latitude is outside world bounds (-90 to 90 deg): "
  | .zoomOutOfRange _ => "Zoom level is outside supported range (0-22): "
  | .boundsNotQuad _ => "Bounds must be west,south,east,north.  Invalid value found: "

/-- Embeds the validation sequence of `render` (lines 166-195) as the
first error it throws, `none` when every check passes.  The checks run in
source order: style presence; the JavaScript truthiness test
`!(width && height)`, which fails exactly when a dimension is zero (any
non-zero number, negative included, is truthy; `ℤ` has no `NaN`); then,
each only when the member was supplied: center pair length, longitude
magnitude, latitude magnitude, zoom range, bounds length. -/
def validationError (style : Option Style) (w h : ℤ) (o : RenderOptions) :
    Option RenderError :=
  if style = none then some .styleRequired
  else if w = 0 ∨ h = 0 then some .widthHeightRequired
  else
    match o.center with
    | some c =>
      if c.length ≠ 2 then some (.centerNotPair c)
      else if 180 < |c.getD 0 0| then some (.lngOutOfRange (c.getD 0 0))
      else if 90 < |c.getD 1 0| then some (.latOutOfRange (c.getD 1 0))
      else zoomBoundsError o
    | none => zoomBoundsError o
where
  /-- Zoom range check (line 187), then bounds length check (lines
  191-195). -/
  zoomBoundsError (o : RenderOptions) : Option RenderError :=
    match o.zoom with
    | some z =>
      if z < 0 ∨ 22 < z then some (.zoomOutOfRange z)
      else boundsLenError o
    | none => boundsLenError o
  /-- Bounds length check (lines 191-195). -/
  boundsLenError (o : RenderOptions) : Option RenderError :=
    match o.bounds with
    | some b => if b.length ≠ 4 then some (.boundsNotQuad b) else none
    | none => none

/-- The parameter object handed to the engine's render pass
(lines 240-246): `{zoom, center, height, width}`, with `zoom` and
`center` possibly still `null`. -/
structure EngineParams where
  zoom : Option ℤ := none
  center : Option (List ℤ) := none
  height : ℤ
  width : ℤ
deriving DecidableEq

/-- Embeds the viewport resolution of `render` (lines 197-203): when
bounds were supplied and zoom OR center is missing, BOTH zoom and center
are assigned from the bounds-derived viewport; otherwise the supplied
values pass through unchanged. -/
def deriveParams (gv : GVFun) (w h : ℤ) (o : RenderOptions) : EngineParams :=
  match o.bounds with
  | some b =>
    if o.zoom = none ∨ o.center = none then
      let v := deriveViewport gv b w h
      { zoom := some v.zoom, center := some v.center, height := h, width := w }
    else { zoom := o.zoom, center := o.center, height := h, width := w }
  | none => { zoom := o.zoom, center := o.center, height := h, width := w }

/-- The synchronous phase of `render` (lines 162-246): validation in
source order, then viewport resolution, producing either the first
validation error (thrown inside the promise executor, hence a promise
rejection) or the parameter object passed to the engine's single render
pass. -/
def renderSetup (gv : GVFun) (style : Option Style) (w h : ℤ) (o : RenderOptions) :
    Except RenderError EngineParams :=
  match validationError style w h o with
  | some e => .error e
  | none => .ok (deriveParams gv w h o)

/-- Engine instrumentation: the list of render-pass invocations `render`
performs (`map.render`, line 240) — empty when validation threw first,
one invocation with the resolved parameters otherwise. -/
def renderEngineCalls (gv : GVFun) (style : Option Style) (w h : ℤ) (o : RenderOptions) :
    List EngineParams :=
  match renderSetup gv style w h o with
  | .error _ => []
  | .ok p => [p]

/-- How the promise returned by `render` settles, as observed by the
caller.  The executor passed to `new Promise` on line 162 captures ONLY
`resolve` — no `reject` parameter exists anywhere in the function — so
the promise rejects exactly when the executor itself throws
synchronously (the validation errors).  The engine invokes the
render-pass callback asynchronously (the render pass is one asynchronous
operation; the executor has returned by then), so the `throw err` on
line 248 inside that callback cannot reject the promise: per JavaScript
semantics it escapes as an uncaught exception while the promise stays
pending forever, which `uncaughtException` records. -/
inductive PromiseOutcome where
  | resolved (png : String)
  | rejected (e : RenderError)
  | uncaughtException (e : String)
deriving DecidableEq

/-- Embeds the full control flow of `render` (lines 162-257) given the
behaviour of the external engine (`engine p` is what the engine passes to
the render-pass callback: an error or a raw pixel buffer) and of the
external image encoder (`encode`, the `sharp(...).png().toBuffer()`
pipeline of lines 251-254).  See `PromiseOutcome` for why an engine error
surfaces as an uncaught exception rather than a rejection. -/
def renderPromise (gv : GVFun) (style : Option Style) (w h : ℤ) (o : RenderOptions)
    (engine : EngineParams → Except String String) (encode : String → String) :
    PromiseOutcome :=
  match renderSetup gv style w h o with
  | .error e => .rejected e
  | .ok p =>
    match engine p with
    | .error err => .uncaughtException err
    | .ok buffer => .resolved (encode buffer)

/-! ### Validity predicates and witness fixtures -/

/-- The supplied center, if any, is an in-range `[lng, lat]` pair
(the ranges `render` checks on lines 173-185). -/
def centerOk (o : RenderOptions) : Prop :=
  match o.center with
  | some c => c.length = 2 ∧ |c.getD 0 0| ≤ 180 ∧ |c.getD 1 0| ≤ 90
  | none => True

instance (o : RenderOptions) : Decidable (centerOk o) := by
  unfold centerOk; cases o.center <;> infer_instance

/-- The supplied zoom, if any, is within the range checked on line 187. -/
def zoomOk (o : RenderOptions) : Prop :=
  match o.zoom with
  | some z => 0 ≤ z ∧ z ≤ 22
  | none => True

instance (o : RenderOptions) : Decidable (zoomOk o) := by
  unfold zoomOk; cases o.zoom <;> infer_instance

/-- The supplied bounds, if any, have the length checked on lines 191-195. -/
def boundsOk (o : RenderOptions) : Prop :=
  match o.bounds with
  | some b => b.length = 4
  | none => True

instance (o : RenderOptions) : Decidable (boundsOk o) := by
  unfold boundsOk; cases o.bounds <;> infer_instance

/-- A tile URL of the local-archive form
`mbtiles://<service>/<z>/<x>/<y>`. -/
def tileURL (service z x y : String) : String :=
  "mbtiles://" ++ service ++ "/" ++ z ++ "/" ++ x ++ "/" ++ y

/-- Concrete external-collaborator environment used by witnesses: the
archive `/tiles/parks.mbtiles` opens successfully but contains no tiles
(every tile query fails); every other archive path fails to open; remote
requests receive a 404 with a JSON error body. -/
def envW : Env where
  openErr := fun f => if f = "/tiles/parks.mbtiles" then none else some (.ext "ENOENT")
  info := fun _ => .error (.ext "no info")
  tile := fun _ _ _ _ => .error (.ext "tile does not exist")
  http := fun _ => .response 404 none none none "\x7b\"message\":\"not found\"\x7d"

/-- Concrete style fixture for witnesses. -/
def style0 : Style := ⟨"stylejson"⟩

/-! ## Helper lemmas -/

/-- The width/height validation error occurs exactly when a dimension is
zero (with a style supplied). -/
theorem validationError_wh_iff (s : Style) (w h : ℤ) (o : RenderOptions) :
    validationError (some s) w h o = some .widthHeightRequired ↔ (w = 0 ∨ h = 0) := by
  constructor
  · intro hv
    by_contra hwh
    unfold validationError at hv
    rw [if_neg (by simp), if_neg hwh] at hv
    rcases o with ⟨oc, oz, ob, ot⟩
    cases oc <;> cases oz <;> cases ob <;>
      simp_all [validationError.zoomBoundsError, validationError.boundsLenError] <;>
      split_ifs at hv <;> simp_all
  · intro hwh
    unfold validationError
    rw [if_neg (by simp), if_pos hwh]

/-- Stripping an expected sequence from a list it prefixes yields exactly
the remainder. -/
theorem stripChars_append (p r : List Char) : stripChars p (p ++ r) = some r := by
  induction p with
  | nil => rfl
  | cons c ps ih => simp [stripChars, ih]

/-- `takeWhile`/`dropWhile` on a list of the shape
`l ++ d :: t` where every element of `l` satisfies `f` and `d` does not:
the maximal run is exactly `l`. -/
theorem takeWhile_middle (f : Char → Bool) (l : List Char) (d : Char)
    (t : List Char) (hl : ∀ c ∈ l, f c = true) (hd : f d = false) :
    (l ++ d :: t).takeWhile f = l ∧ (l ++ d :: t).dropWhile f = d :: t := by
  induction l with
  | nil => simp [List.takeWhile_cons, List.dropWhile_cons, hd]
  | cons c cs ih =>
    have hc : f c = true := hl c (List.mem_cons_self c cs)
    have ih2 := ih (fun a ha => hl a (List.mem_cons_of_mem c ha))
    simp [List.takeWhile_cons, List.dropWhile_cons, hc, ih2.1, ih2.2]

/-- A list all of whose elements satisfy `f` is its own maximal run. -/
theorem takeWhile_all_of (f : Char → Bool) (l : List Char)
    (hl : ∀ c ∈ l, f c = true) : l.takeWhile f = l := by
  induction l with
  | nil => rfl
  | cons c cs ih =>
    simp [List.takeWhile_cons, hl c (by simp),
      ih (fun a ha => hl a (by simp [ha]))]

/-- A nonempty list is not `isEmpty`. -/
theorem isEmpty_false_of_ne {l : List Char} (h : l ≠ []) : l.isEmpty = false := by
  cases l with
  | nil => exact absurd rfl h
  | cons a t => rfl

/-- Digits are not the colon character. -/
theorem digit_ne_colon {c : Char} (h : c.isDigit = true) : c ≠ ':' :=
  fun hc => by subst hc; exact absurd h (by decide)

/-- Digits are not the slash character. -/
theorem digit_ne_slash {c : Char} (h : c.isDigit = true) : c ≠ '/' :=
  fun hc => by subst hc; exact absurd h (by decide)

/-- The anchored matcher accepts exactly-shaped tile URLs, capturing the
service and the three digit runs. -/
theorem matchFrom_exact (s z x y : List Char)
    (hs : s ≠ []) (hsf : ∀ c ∈ s, c ≠ '/')
    (hz : z ≠ []) (hzd : ∀ c ∈ z, c.isDigit = true)
    (hx : x ≠ []) (hxd : ∀ c ∈ x, c.isDigit = true)
    (hy : y ≠ []) (hyd : ∀ c ∈ y, c.isDigit = true) :
    matchFrom (schemeChars ++ (s ++ '/' :: (z ++ '/' :: (x ++ '/' :: y)))) =
      some ⟨s, z, x, y⟩ := by
  have hsf2 : ∀ c ∈ s, (c != '/') = true := fun c hc => by
    simpa using hsf c hc
  have hslash : (('/' : Char) != '/') = false := by decide
  have hdig : Char.isDigit '/' = false := by decide
  have h1 := takeWhile_middle (fun c => c != '/') s '/'
    (z ++ '/' :: (x ++ '/' :: y)) hsf2 hslash
  have h2 := takeWhile_middle Char.isDigit z '/' (x ++ '/' :: y) hzd hdig
  have h3 := takeWhile_middle Char.isDigit x '/' y hxd hdig
  have h4 := takeWhile_all_of Char.isDigit y hyd
  simp only [matchFrom, stripChars_append, h1.1, h1.2, h2.1, h2.2, h3.1, h3.2,
    h4, isEmpty_false_of_ne hs, isEmpty_false_of_ne hz, isEmpty_false_of_ne hx,
    isEmpty_false_of_ne hy, Bool.false_eq_true, if_false]

/-- The unanchored search returns any match found at the very first
position. -/
theorem searchMatch_of_matchFrom {l : List Char} {m : RawTileMatch}
    (h : matchFrom l = some m) : searchMatch l = some m := by
  cases l with
  | nil => simp [matchFrom, stripChars, schemeChars] at h
  | cons c cs => simp [searchMatch, h]

/-- Character-list decomposition of a well-formed tile URL. -/
theorem tileURL_data (service z x y : String) :
    (tileURL service z x y).data =
      schemeChars ++
        (service.data ++ '/' :: (z.data ++ '/' :: (x.data ++ '/' :: y.data))) := by
  have hm : ("mbtiles://" : String).data = schemeChars := by decide
  have hs : ("/" : String).data = ['/'] := by decide
  simp [tileURL, String.data_append, hm, hs, List.append_assoc, schemeChars]

/-- The catch-all step of `splitScheme` on a head that is not a colon. -/
theorem splitScheme_cons_ne {c : Char} (hc : c ≠ ':') (cur rest : List Char) :
    splitScheme cur (c :: rest) = splitScheme (c :: cur) rest := by
  rcases rest with _ | ⟨c2, _ | ⟨c3, rest2⟩⟩ <;> simp [splitScheme, hc]

/-- The separator step of `splitScheme`. -/
theorem splitScheme_hit (cur rest : List Char) :
    splitScheme cur (':' :: '/' :: '/' :: rest) =
      cur.reverse :: splitScheme [] rest := rfl

/-- `splitScheme` accumulates a colon-free block unchanged. -/
theorem splitScheme_skip (s : List Char) (hs : ∀ c ∈ s, c ≠ ':')
    (cur l : List Char) :
    splitScheme cur (s ++ l) = splitScheme (s.reverse ++ cur) l := by
  induction s generalizing cur with
  | nil => simp
  | cons c cs ih =>
    rw [List.cons_append, splitScheme_cons_ne (hs c (by simp)),
      ih (fun a ha => hs a (by simp [ha]))]
    simp [List.append_assoc]

/-- A colon-free tail produces no further splits. -/
theorem splitScheme_none (l : List Char) (hl : ∀ c ∈ l, c ≠ ':')
    (cur : List Char) : splitScheme cur l = [cur.reverse ++ l] := by
  induction l generalizing cur with
  | nil => simp [splitScheme]
  | cons c cs ih =>
    rw [splitScheme_cons_ne (hl c (by simp)),
      ih (fun a ha => hl a (by simp [ha]))]
    simp

/-- The catch-all step of `splitSlash` on a head that is not a slash. -/
theorem splitSlash_cons_ne {c : Char} (hc : c ≠ '/') (cur rest : List Char) :
    splitSlash cur (c :: rest) = splitSlash (c :: cur) rest := by
  simp [splitSlash, hc]

/-- The separator step of `splitSlash`. -/
theorem splitSlash_hit (cur rest : List Char) :
    splitSlash cur ('/' :: rest) = cur.reverse :: splitSlash [] rest := by
  simp [splitSlash]

/-- `splitSlash` accumulates a slash-free block unchanged. -/
theorem splitSlash_skip (s : List Char) (hs : ∀ c ∈ s, c ≠ '/')
    (cur l : List Char) :
    splitSlash cur (s ++ l) = splitSlash (s.reverse ++ cur) l := by
  induction s generalizing cur with
  | nil => simp
  | cons c cs ih =>
    rw [List.cons_append, splitSlash_cons_ne (hs c (by simp)),
      ih (fun a ha => hs a (by simp [ha]))]
    simp [List.append_assoc]

/-- `resolveNamefromURL` on a URL of the local-archive shape extracts the
substring after the scheme separator and before the next path
separator — the service name. -/
theorem resolveNamefromURL_exact (url service : String) (tail : List Char)
    (hurl : url.data = schemeChars ++ (service.data ++ '/' :: tail))
    (hsc : ∀ c ∈ service.data, c ≠ ':' ∧ c ≠ '/')
    (htail : ∀ c ∈ tail, c ≠ ':') :
    resolveNamefromURL url = some service := by
  have h7 : ∀ c ∈ ("mbtiles" : String).data, c ≠ ':' := by decide
  have hsch : schemeChars ++ (service.data ++ '/' :: tail) =
      ("mbtiles" : String).data ++
        (':' :: '/' :: '/' :: (service.data ++ '/' :: tail)) := by
    have : schemeChars = ("mbtiles" : String).data ++ [':', '/', '/'] := by decide
    simp [this, List.append_assoc]
  have hall : ∀ c ∈ service.data ++ '/' :: tail, c ≠ ':' := by
    intro c hc
    rcases List.mem_append.1 hc with h | h
    · exact (hsc c h).1
    · rcases List.mem_cons.1 h with h | h
      · subst h; decide
      · exact htail c h
  unfold resolveNamefromURL
  rw [hurl, hsch, splitScheme_skip _ h7, splitScheme_hit,
    splitScheme_none _ hall]
  simp only [List.reverse_nil, List.nil_append, List.reverse_reverse,
    List.append_nil]
  rw [splitSlash_skip service.data (fun c hc => (hsc c hc).2), splitSlash_hit]
  simp

/-! ## Claim theorems -/

/-- C1, counterexample.  The claim asserts that bounds-derived values
"fill in only the missing member of the pair and never override an
explicitly supplied center or zoom".  Here the caller supplies bounds
`[0, 0, 10, 10]`, an explicit center `[1, 1]` and no zoom; the source
(lines 198-203) recomputes BOTH members because one is missing, and the
engine receives the bounds-derived center `[5, 5]` instead of the
explicitly supplied `[1, 1]`. -/
theorem C1_center_overridden :
    renderSetup geoViewportModel (some style0) 512 512
        { center := some [1, 1], bounds := some [0, 0, 10, 10] } =
      .ok { zoom := some 4, center := some [5, 5], height := 512, width := 512 } ∧
    (some [5, 5] : Option (List ℤ)) ≠ some [1, 1] := by
  exact ⟨by decide, by decide⟩

/-- C1, amended: if bounds are supplied and either center or zoom is
missing, BOTH center and zoom are assigned the bounds-derived values —
an explicitly supplied member of an incomplete pair is overridden; only
when center and zoom are both supplied are the explicit values kept
(and bounds ignored), and without bounds the supplied values pass
through unchanged. -/
theorem C1_viewport_precedence (gv : GVFun) (style : Option Style) (w h : ℤ)
    (o : RenderOptions) (p : EngineParams)
    (hok : renderSetup gv style w h o = .ok p) :
    (∀ b, o.bounds = some b →
      ((o.zoom = none ∨ o.center = none) →
          p.zoom = some (max ((gv b (w, h)).zoom - 1) 0) ∧
            p.center = some (gv b (w, h)).center) ∧
        (o.zoom ≠ none → o.center ≠ none →
          p.zoom = o.zoom ∧ p.center = o.center)) ∧
    (o.bounds = none → p.zoom = o.zoom ∧ p.center = o.center) := by
  unfold renderSetup at hok
  cases hval : validationError style w h o with
  | some e => rw [hval] at hok; exact absurd hok (by simp)
  | none =>
    rw [hval] at hok
    injection hok with hp
    subst hp
    constructor
    · intro b hb
      constructor
      · intro hzc
        simp only [deriveParams, hb, if_pos hzc]
        exact ⟨rfl, rfl⟩
      · intro hz hc
        have hzc : ¬(o.zoom = none ∨ o.center = none) := by tauto
        simp only [deriveParams, hb, if_neg hzc]
        constructor <;> trivial
    · intro hb
      simp only [deriveParams, hb]
      constructor <;> trivial

/-- C1, witness for the amended claim at the counterexample input. -/
theorem C1_viewport_precedence_witness :
    ({ zoom := some 4, center := some [5, 5], height := 512, width := 512 }
        : EngineParams).zoom =
        some (max ((geoViewportModel [0, 0, 10, 10] (512, 512)).zoom - 1) 0) ∧
      ({ zoom := some 4, center := some [5, 5], height := 512, width := 512 }
        : EngineParams).center =
        some (geoViewportModel [0, 0, 10, 10] (512, 512)).center :=
  ((C1_viewport_precedence geoViewportModel (some style0) 512 512
      { center := some [1, 1], bounds := some [0, 0, 10, 10] }
      { zoom := some 4, center := some [5, 5], height := 512, width := 512 }
      (by decide)).1 [0, 0, 10, 10] rfl).1 (by decide)

/-- C2: evaluation of the code at the failing input.  The claim (and the
spec) say a render-pass error from the engine is surfaced as the
rejection of the promise returned by `render`.  The promise executor on
line 162 captures only `resolve`, and the engine invokes the render-pass
callback asynchronously, after the executor has returned; the `throw err`
on line 248 therefore escapes as an uncaught exception and the promise
never settles — it does not reject.  Witnessed here on a validated call
whose engine render pass reports the error `"render failed"`: the
observable outcome is `uncaughtException`, not `rejected`. -/
theorem C2_engine_error_not_rejected :
    renderPromise geoViewportModel (some style0) 512 512
        { center := some [0, 0], zoom := some 1 }
        (fun _ => .error "render failed") id =
      .uncaughtException "render failed" := by decide

/-- C4: the derived viewport keeps the library's center and applies
exactly the margin `max(fittedZoom - 1, 0)` (source lines 197-203);
whenever the library's fitted center lies within the bounds, so does the
derived center.  Determinism and absence of side effects are intrinsic:
the derivation is embedded as a pure function of its arguments, exactly
as the source reads only its arguments. -/
theorem C4_viewport_margin (gv : GVFun) (b : List ℤ) (w h : ℤ) :
    (deriveViewport gv b w h).zoom = max ((gv b (w, h)).zoom - 1) 0 ∧
      (deriveViewport gv b w h).center = (gv b (w, h)).center ∧
      (centerWithin (gv b (w, h)).center b →
        centerWithin (deriveViewport gv b w h).center b) :=
  ⟨rfl, rfl, fun hc => hc⟩

/-- C4, witness at the spec-modelled geo-viewport stand-in on the box
`[0, 0, 10, 10]` at 512x512 pixels. -/
theorem C4_viewport_margin_witness :
    (deriveViewport geoViewportModel [0, 0, 10, 10] 512 512).zoom =
        max ((geoViewportModel [0, 0, 10, 10] (512, 512)).zoom - 1) 0 ∧
      centerWithin (deriveViewport geoViewportModel [0, 0, 10, 10] 512 512).center
        [0, 0, 10, 10] :=
  ⟨(C4_viewport_margin geoViewportModel [0, 0, 10, 10] 512 512).1,
    (C4_viewport_margin geoViewportModel [0, 0, 10, 10] 512 512).2.2 (by decide)⟩

/-- C9, counterexample.  The claim asserts validation accepts exactly
width > 0 and height > 0.  The source tests `!(width && height)`
(line 169), which rejects only zero: here width = -5 — not strictly
positive — passes validation and the engine render pass is invoked with
it. -/
theorem C9_negative_width_accepted :
    renderEngineCalls geoViewportModel (some style0) (-5) 512
        { center := some [0, 0], zoom := some 1 } =
      [{ zoom := some 1, center := some [0, 0], height := 512, width := -5 }] ∧
    ¬(0 < (-5 : ℤ)) := by
  exact ⟨by decide, by decide⟩

/-- C9, amended: validation rejects width/height exactly when one of them
is zero — a zero dimension fails with the distinct width/height error
before any engine work, and any call with both dimensions non-zero
(negative values included) passes this check. -/
theorem C9_nonzero_dimensions (gv : GVFun) (s : Style) (w h : ℤ) (o : RenderOptions) :
    ((w = 0 ∨ h = 0) →
      renderSetup gv (some s) w h o = .error .widthHeightRequired ∧
        renderEngineCalls gv (some s) w h o = []) ∧
    (w ≠ 0 → h ≠ 0 →
      renderSetup gv (some s) w h o ≠ .error .widthHeightRequired) := by
  constructor
  · intro hwh
    have hv := (validationError_wh_iff s w h o).2 hwh
    simp [renderSetup, renderEngineCalls, hv]
  · intro hw hh hcontra
    have hv : validationError (some s) w h o = some .widthHeightRequired := by
      unfold renderSetup at hcontra
      cases hval : validationError (some s) w h o with
      | some e =>
        rw [hval] at hcontra
        injection hcontra with he
        rw [he]
      | none => rw [hval] at hcontra; exact absurd hcontra (by simp)
    exact absurd ((validationError_wh_iff s w h o).1 hv) (by tauto)

/-- C9, witness for the amended claim: width 0 fails with the
width/height error and zero engine invocations; the counterexample input
above witnesses the passing direction. -/
theorem C9_nonzero_dimensions_witness :
    (renderSetup geoViewportModel (some style0) 0 512 {} =
        .error .widthHeightRequired ∧
      renderEngineCalls geoViewportModel (some style0) 0 512 {} = []) ∧
    renderSetup geoViewportModel (some style0) (-5) 512
        { center := some [0, 0], zoom := some 1 } ≠
      .error .widthHeightRequired :=
  ⟨(C9_nonzero_dimensions geoViewportModel style0 0 512 {}).1 (by decide),
    (C9_nonzero_dimensions geoViewportModel style0 (-5) 512
      { center := some [0, 0], zoom := some 1 }).2 (by decide) (by decide)⟩

/-- C10, counterexample.  The claim asserts every call reaching the
engine has a resolved viewport.  The source validates nothing about the
presence of center/zoom/bounds: a call supplying none of them passes
validation and invokes the engine render pass with `zoom: null` and
`center: null` (lines 240-246). -/
theorem C10_unresolved_viewport_reaches_engine :
    renderEngineCalls geoViewportModel (some style0) 1024 1024 {} =
      [{ zoom := none, center := none, height := 1024, width := 1024 }] := by
  decide

/-- C10, amended: whenever a call that reaches the engine supplied bounds
or supplied both center and zoom, the engine receives non-null zoom and
center; calls supplying neither are not rejected and reach the engine
with null zoom and center (see the counterexample). -/
theorem C10_viewport_resolved (gv : GVFun) (style : Option Style) (w h : ℤ)
    (o : RenderOptions) (p : EngineParams)
    (hok : renderSetup gv style w h o = .ok p)
    (hgiven : o.bounds ≠ none ∨ (o.zoom ≠ none ∧ o.center ≠ none)) :
    p.zoom ≠ none ∧ p.center ≠ none := by
  unfold renderSetup at hok
  cases hval : validationError style w h o with
  | some e => rw [hval] at hok; exact absurd hok (by simp)
  | none =>
    rw [hval] at hok
    injection hok with hp
    subst hp
    cases hb : o.bounds with
    | none =>
      rcases hgiven with hcon | ⟨hz, hc⟩
      · exact absurd hb hcon
      · simp only [deriveParams, hb]
        exact ⟨hz, hc⟩
    | some b =>
      by_cases hzc : o.zoom = none ∨ o.center = none
      · simp only [deriveParams, hb, if_pos hzc]
        exact ⟨by simp, by simp⟩
      · simp only [deriveParams, hb, if_neg hzc]
        push_neg at hzc
        exact ⟨hzc.1, hzc.2⟩

/-- C10, witness for the amended claim: a bounds-only call reaches the
engine with non-null zoom and center. -/
theorem C10_viewport_resolved_witness :
    ({ zoom := some 4, center := some [5, 5], height := 512, width := 512 }
        : EngineParams).zoom ≠ none ∧
      ({ zoom := some 4, center := some [5, 5], height := 512, width := 512 }
        : EngineParams).center ≠ none :=
  C10_viewport_resolved geoViewportModel (some style0) 512 512
    { bounds := some [0, 0, 10, 10] }
    { zoom := some 4, center := some [5, 5], height := 512, width := 512 }
    (by decide) (by decide)

/-- Helper: with a style supplied, non-zero dimensions and an in-range
(or absent) center, validation reduces to the zoom/bounds checks. -/
theorem validationError_skip_center (s : Style) (w h : ℤ) (o : RenderOptions)
    (hw : w ≠ 0) (hh : h ≠ 0) (hcok : centerOk o) :
    validationError (some s) w h o = validationError.zoomBoundsError o := by
  unfold validationError
  rw [if_neg (by simp), if_neg (by tauto)]
  cases hc : o.center with
  | none => simp only [hc]
  | some c =>
    unfold centerOk at hcok
    rw [hc] at hcok
    obtain ⟨hlen, hlng, hlat⟩ := hcok
    simp only [hc]
    rw [if_neg (by simp [hlen]), if_neg (not_lt.mpr hlng), if_neg (not_lt.mpr hlat)]

/-- Helper: with an in-range (or absent) zoom, the zoom/bounds checks
reduce to the bounds length check. -/
theorem zoomBoundsError_skip_zoom (o : RenderOptions) (hzok : zoomOk o) :
    validationError.zoomBoundsError o = validationError.boundsLenError o := by
  unfold validationError.zoomBoundsError
  cases hz : o.zoom with
  | none => simp only [hz]
  | some z =>
    unfold zoomOk at hzok
    rw [hz] at hzok
    simp only [hz]
    rw [if_neg (by rw [not_or]; exact ⟨not_lt.mpr hzok.1, not_lt.mpr hzok.2⟩)]

/-- Helper: with well-formed (or absent) bounds, the bounds length check
passes. -/
theorem boundsLenError_skip (o : RenderOptions) (hbok : boundsOk o) :
    validationError.boundsLenError o = none := by
  unfold validationError.boundsLenError
  cases hb : o.bounds with
  | none => simp only [hb]
  | some b =>
    unfold boundsOk at hbok
    rw [hb] at hbok
    simp only [hb]
    rw [if_neg (by simp [hbok])]

/-- C6: each malformed-parameter class the claim lists fails with its own
distinct validation error, thrown before the engine render pass is
constructed (the engine invocation list is empty); and with style
supplied, non-zero dimensions and every supplied member in range,
validation passes.  The final conjunct records that the seven message
templates are pairwise distinct. -/
theorem C6_validation (gv : GVFun) (s : Style) (w h : ℤ) (o : RenderOptions)
    (hw : w ≠ 0) (hh : h ≠ 0) :
    (renderSetup gv none w h o = .error .styleRequired ∧
      renderEngineCalls gv none w h o = []) ∧
    (∀ c, o.center = some c → c.length ≠ 2 →
      renderSetup gv (some s) w h o = .error (.centerNotPair c) ∧
        renderEngineCalls gv (some s) w h o = []) ∧
    (∀ c, o.center = some c → c.length = 2 → 180 < |c.getD 0 0| →
      renderSetup gv (some s) w h o = .error (.lngOutOfRange (c.getD 0 0)) ∧
        renderEngineCalls gv (some s) w h o = []) ∧
    (∀ c, o.center = some c → c.length = 2 → |c.getD 0 0| ≤ 180 →
        90 < |c.getD 1 0| →
      renderSetup gv (some s) w h o = .error (.latOutOfRange (c.getD 1 0)) ∧
        renderEngineCalls gv (some s) w h o = []) ∧
    (∀ z, o.zoom = some z → centerOk o → (z < 0 ∨ 22 < z) →
      renderSetup gv (some s) w h o = .error (.zoomOutOfRange z) ∧
        renderEngineCalls gv (some s) w h o = []) ∧
    (∀ b, o.bounds = some b → centerOk o → zoomOk o → b.length ≠ 4 →
      renderSetup gv (some s) w h o = .error (.boundsNotQuad b) ∧
        renderEngineCalls gv (some s) w h o = []) ∧
    (centerOk o → zoomOk o → boundsOk o →
      ∃ p, renderSetup gv (some s) w h o = .ok p) ∧
    [RenderError.styleRequired.message, RenderError.widthHeightRequired.message,
      (RenderError.centerNotPair []).message, (RenderError.lngOutOfRange 0).message,
      (RenderError.latOutOfRange 0).message, (RenderError.zoomOutOfRange 0).message,
      (RenderError.boundsNotQuad []).message].Nodup := by
  refine ⟨?_, ?_, ?_, ?_, ?_, ?_, ?_, by decide⟩
  · have hv : validationError none w h o = some .styleRequired := by
      unfold validationError
      rw [if_pos rfl]
    simp [renderSetup, renderEngineCalls, hv]
  · intro c hc hlen
    have hv : validationError (some s) w h o = some (.centerNotPair c) := by
      unfold validationError
      rw [if_neg (by simp), if_neg (by tauto)]
      simp only [hc]
      rw [if_pos hlen]
    simp [renderSetup, renderEngineCalls, hv]
  · intro c hc hlen hlng
    have hv : validationError (some s) w h o = some (.lngOutOfRange (c.getD 0 0)) := by
      unfold validationError
      rw [if_neg (by simp), if_neg (by tauto)]
      simp only [hc]
      rw [if_neg (by simp [hlen]), if_pos hlng]
    simp [renderSetup, renderEngineCalls, hv]
  · intro c hc hlen hlng hlat
    have hv : validationError (some s) w h o = some (.latOutOfRange (c.getD 1 0)) := by
      unfold validationError
      rw [if_neg (by simp), if_neg (by tauto)]
      simp only [hc]
      rw [if_neg (by simp [hlen]), if_neg (not_lt.mpr hlng), if_pos hlat]
    simp [renderSetup, renderEngineCalls, hv]
  · intro z hz hcok hzr
    have hv : validationError (some s) w h o = some (.zoomOutOfRange z) := by
      rw [validationError_skip_center s w h o hw hh hcok]
      unfold validationError.zoomBoundsError
      simp only [hz]
      rw [if_pos hzr]
    simp [renderSetup, renderEngineCalls, hv]
  · intro b hb hcok hzok hlen
    have hv : validationError (some s) w h o = some (.boundsNotQuad b) := by
      rw [validationError_skip_center s w h o hw hh hcok,
        zoomBoundsError_skip_zoom o hzok]
      unfold validationError.boundsLenError
      simp only [hb]
      rw [if_pos hlen]
    simp [renderSetup, renderEngineCalls, hv]
  · intro hcok hzok hbok
    refine ⟨deriveParams gv w h o, ?_⟩
    unfold renderSetup
    rw [validationError_skip_center s w h o hw hh hcok,
      zoomBoundsError_skip_zoom o hzok, boundsLenError_skip o hbok]

/-- C6, witness: an in-range call passes validation, and the message
templates are pairwise distinct. -/
theorem C6_validation_witness :
    (∃ p, renderSetup geoViewportModel (some style0) 256 256
      { center := some [10, 20], zoom := some 3 } = .ok p) ∧
    [RenderError.styleRequired.message, RenderError.widthHeightRequired.message,
      (RenderError.centerNotPair []).message, (RenderError.lngOutOfRange 0).message,
      (RenderError.latOutOfRange 0).message, (RenderError.zoomOutOfRange 0).message,
      (RenderError.boundsNotQuad []).message].Nodup :=
  ⟨(C6_validation geoViewportModel style0 256 256
      { center := some [10, 20], zoom := some 3 } (by decide) (by decide)).2.2.2.2.2.2.1
      (by decide) (by decide) (by decide),
    (C6_validation geoViewportModel style0 256 256
      { center := some [10, 20], zoom := some 3 } (by decide) (by decide)).2.2.2.2.2.2.2⟩

/-- C3: for a Tile-kind dispatch (`kind = 3`) against a local-archive URL
that the tile regular expression accepts, the two failure modes are
observably distinct: an archive-open failure is delivered to the
callback as that error; an open success followed by a tile-query failure
is delivered as `callback(null, {})` — no error, a result with no data —
after logging the diagnostic line identifying z, x, y and the archive
path (source lines 83-96). -/
theorem C3_local_tile_asymmetry (env : Env) (tilePath url : String)
    (m : TileMatch) (file : String)
    (hmb : isMBTilesURL url = true)
    (hm : tileURLMatch url = some m)
    (hfile : resolveMBTilesURL tilePath url = some file) :
    (∀ e, env.openErr file = some e →
      dispatch env tilePath url 3 = ({ outcome := .err e }, [.localTile])) ∧
    (∀ te, env.openErr file = none → env.tile file m.z m.x m.y = .error te →
      dispatch env tilePath url 3 =
        ({ outcome := .ok {}, logs := [tileErrorLog m.z m.x m.y file] },
          [.localTile])) ∧
    ({} : CbValue).data = none ∧
    (∀ e (v : CbValue), CbOutcome.err e ≠ .ok v) := by
  refine ⟨?_, ?_, rfl, fun e v hne => CbOutcome.noConfusion hne⟩
  · intro e he
    have hrun : getTileModel env tilePath url = { outcome := .err e } := by
      unfold getTileModel
      simp only [hm, hfile, he]
    simp [dispatch, hmb, hrun, catchSync]
  · intro te hopen htile
    have hrun : getTileModel env tilePath url =
        { outcome := .ok {}, logs := [tileErrorLog m.z m.x m.y file] } := by
      unfold getTileModel
      simp only [hm, hfile, hopen, htile]
    simp [dispatch, hmb, hrun, catchSync]

/-- C3, witness: against `envW`, the archive `/tiles/parks.mbtiles` opens
but its tile query fails, so dispatching `mbtiles://parks/5/10/12`
delivers an errorless empty result and the diagnostic log line. -/
theorem C3_local_tile_asymmetry_witness :
    dispatch envW "/tiles/" "mbtiles://parks/5/10/12" 3 =
      ({ outcome := .ok {},
         logs := [tileErrorLog "5" "10" "12" "/tiles/parks.mbtiles"] },
        [.localTile]) :=
  (C3_local_tile_asymmetry envW "/tiles/" "mbtiles://parks/5/10/12"
      ⟨"parks", "5", "10", "12"⟩ "/tiles/parks.mbtiles"
      (by decide) (by decide) (by decide)).2.1
    (.ext "tile does not exist") (by decide) (by decide)

/-- C5: the dispatcher's routing table (source lines 207-235).  Source
metadata requests (`kind = 2`) route to the local metadata lookup for
`mbtiles://` URLs and invoke no callback otherwise; tile requests
(`kind = 3`) route to the local tile lookup for `mbtiles://` URLs and to
the remote fetch otherwise; every other kind invokes no callback; and an
exception raised synchronously inside the routed adapter is caught by the
surrounding `try`/`catch` and delivered as a callback error instead of
propagating into the engine. -/
theorem C5_dispatch_routing (env : Env) (tilePath url : String) (kind : ℕ) :
    (kind = 2 → isMBTilesURL url = true →
      dispatch env tilePath url kind =
        (catchSync (getTileJSONModel env tilePath url), [.localMetadata])) ∧
    (kind = 2 → isMBTilesURL url = false →
      dispatch env tilePath url kind = ({}, [])) ∧
    (kind = 3 → isMBTilesURL url = true →
      dispatch env tilePath url kind =
        (catchSync (getTileModel env tilePath url), [.localTile])) ∧
    (kind = 3 → isMBTilesURL url = false →
      dispatch env tilePath url kind =
        (catchSync (getRemoteTileModel (env.http url)), [.remoteTile])) ∧
    (kind ≠ 2 → kind ≠ 3 → dispatch env tilePath url kind = ({}, [])) ∧
    ({} : AdapterRun).outcome = .notInvoked ∧
    (∀ e, (getTileModel env tilePath url).syncThrow = some e →
      kind = 3 → isMBTilesURL url = true →
      (dispatch env tilePath url kind).1.outcome = .err e ∧
        (dispatch env tilePath url kind).1.syncThrow = none) := by
  refine ⟨?_, ?_, ?_, ?_, ?_, rfl, ?_⟩
  · intro hk hmb; subst hk; simp [dispatch, hmb]
  · intro hk hmb; subst hk; simp [dispatch, hmb]
  · intro hk hmb; subst hk; simp [dispatch, hmb]
  · intro hk hmb; subst hk; simp [dispatch, hmb]
  · intro h2 h3; simp [dispatch, h2, h3]
  · intro e he hk hmb
    subst hk
    simp [dispatch, hmb, catchSync, he]

/-- C5, witness: a tile request for an `https://` URL routes to the
remote fetch; an unknown kind invokes no callback. -/
theorem C5_dispatch_routing_witness :
    dispatch envW "/tiles/" "https://example.com/tile" 3 =
      (catchSync (getRemoteTileModel (envW.http "https://example.com/tile")),
        [.remoteTile]) ∧
    dispatch envW "/tiles/" "https://example.com/tile" 7 = ({}, []) :=
  ⟨(C5_dispatch_routing envW "/tiles/" "https://example.com/tile" 3).2.2.2.1
      rfl (by decide),
    (C5_dispatch_routing envW "/tiles/" "https://example.com/tile" 7).2.2.2.2.1
      (by decide) (by decide)⟩

/-- C8, counterexample.  The claim asserts the result's `etag` member is
populated "exactly when" the response carries the header.  The source
guards each header with a JavaScript truthiness test (line 134), so a
present-but-empty `etag` header (a legal HTTP header value) is treated
as absent: here the 200 response carries `etag: ""` yet the delivered
result has no `etag` member. -/
theorem C8_empty_etag_dropped :
    getRemoteTileModel (.response 200 none none (some "") "B") =
      { outcome := .ok { data := some (.bytes "B") } } ∧
    (some "" : Option String) ≠ none := ⟨by decide, by decide⟩

/-- C8, amended: a transport error is delivered to the callback carrying
the underlying cause unchanged; a 200 response delivers the raw body as
`data` with `modified`/`expires` parsed as dates and `etag` copied
verbatim, each populated exactly when the header is present AND
non-empty (the truthiness guard); a non-200 response whose body is a
JSON object with a `message` member delivers an error with exactly that
message. -/
theorem C8_remote_fetch (e : JsError) (mo ex et : Option String) (body : String)
    (status : ℕ) (msg : String) (kvs : List (String × String)) :
    getRemoteTileModel (.transportErr e) = { outcome := .err e } ∧
    getRemoteTileModel (.response 200 mo ex et body) =
      { outcome := .ok
          { data := some (.bytes body)
            modified := (truthyStr mo).map JsDate.mk
            expires := (truthyStr ex).map JsDate.mk
            etag := truthyStr et } } ∧
    (∀ v, v ≠ "" → truthyStr (some v) = some v) ∧
    truthyStr none = none ∧
    (status ≠ 200 → jsonFlatParse body = some kvs →
      objGet "message" kvs = some msg →
      getRemoteTileModel (.response status mo ex et body) =
        { outcome := .err (.error msg) }) := by
  refine ⟨rfl, by simp [getRemoteTileModel], fun v hv => by simp [truthyStr, hv],
    rfl, ?_⟩
  intro hst hp hm
  simp [getRemoteTileModel, hst, jsonMessage, hp, hm]

/-- C8, witness for the amended claim: the 404 response with body
carrying message "not found" is delivered as an error with exactly that
message. -/
theorem C8_remote_fetch_witness :
    getRemoteTileModel
        (.response 404 none none none "\x7b\"message\":\"not found\"\x7d") =
      { outcome := .err (.error "not found") } :=
  (C8_remote_fetch (.ext "unused") none none none
      "\x7b\"message\":\"not found\"\x7d" 404 "not found"
      [("message", "not found")]).2.2.2.2 (by decide) (by decide) (by decide)

/-- C7: the URL Resolver.  For every tile URL of the local-archive form
`mbtiles://<service>/<z>/<x>/<y>` (service non-empty without path or
scheme separator characters, z/x/y non-empty digit runs — the spec
writes the scheme abstractly as `archive://`): the regular-expression
match extracts the service and the three trailing path segments, and the
split-based name resolution extracts the substring after the scheme
separator and before the next path separator; a URL the expression
rejects (trailing triple absent) makes `getTile` throw synchronously
before any callback — the failure the spec names
`MalformedTileURLError` (in the source it is the `TypeError` from
slicing the `null` match, which the dispatcher converts to a callback
error, see C5); and the archive file path is the pure three-way join of
the configured base directory, the service name and the fixed
`.mbtiles` extension, computed with no filesystem access. -/
theorem C7_url_resolution :
    (∀ service z x y : String,
      service.data ≠ [] →
      (∀ c ∈ service.data, c ≠ '/' ∧ c ≠ ':') →
      z.data ≠ [] → (∀ c ∈ z.data, c.isDigit = true) →
      x.data ≠ [] → (∀ c ∈ x.data, c.isDigit = true) →
      y.data ≠ [] → (∀ c ∈ y.data, c.isDigit = true) →
      tileURLMatch (tileURL service z x y) = some ⟨service, z, x, y⟩ ∧
        resolveNamefromURL (tileURL service z x y) = some service ∧
        ∀ tilePath, resolveMBTilesURL tilePath (tileURL service z x y) =
          some (pathFormat tilePath service ".mbtiles")) ∧
    (∀ (url : String) (env : Env) (tilePath : String),
      tileURLMatch url = none →
      (getTileModel env tilePath url).syncThrow =
          some (.typeError "Cannot read properties of null") ∧
        (getTileModel env tilePath url).outcome = .notInvoked) ∧
    (∀ tilePath name ext : String,
      pathFormat tilePath name ext = tilePath ++ name ++ ext) := by
  refine ⟨?_, ?_, fun _ _ _ => rfl⟩
  · intro service z x y hsne hsc hzne hzd hxne hxd hyne hyd
    have hmatch : matchFrom ((tileURL service z x y).data) =
        some ⟨service.data, z.data, x.data, y.data⟩ := by
      rw [tileURL_data]
      exact matchFrom_exact service.data z.data x.data y.data hsne
        (fun c hc => (hsc c hc).1) hzne hzd hxne hxd hyne hyd
    have hname : resolveNamefromURL (tileURL service z x y) = some service := by
      refine resolveNamefromURL_exact (tileURL service z x y) service
        (z.data ++ '/' :: (x.data ++ '/' :: y.data)) (tileURL_data service z x y)
        (fun c hc => ⟨(hsc c hc).2, (hsc c hc).1⟩) ?_
      intro c hc
      rcases List.mem_append.1 hc with h | h
      · exact digit_ne_colon (hzd c h)
      · rcases List.mem_cons.1 h with h | h
        · subst h; decide
        · rcases List.mem_append.1 h with h | h
          · exact digit_ne_colon (hxd c h)
          · rcases List.mem_cons.1 h with h | h
            · subst h; decide
            · exact digit_ne_colon (hyd c h)
    refine ⟨?_, hname, ?_⟩
    · unfold tileURLMatch
      rw [searchMatch_of_matchFrom hmatch]
      rfl
    · intro tilePath
      unfold resolveMBTilesURL
      rw [hname]
      rfl
  · intro url env tilePath h
    constructor <;> simp [getTileModel, h]

/-- C7, witness: the claim's own example — `mbtiles://parks/5/10/12`
resolves to service `parks` and z = 5, x = 10, y = 12, its archive path
is the pure join, and the URL missing the trailing triple fails. -/
theorem C7_url_resolution_witness :
    (tileURLMatch (tileURL "parks" "5" "10" "12") =
        some ⟨"parks", "5", "10", "12"⟩ ∧
      resolveNamefromURL (tileURL "parks" "5" "10" "12") = some "parks" ∧
      ∀ tilePath, resolveMBTilesURL tilePath (tileURL "parks" "5" "10" "12") =
        some (pathFormat tilePath "parks" ".mbtiles")) ∧
    (getTileModel envW "/tiles/" "mbtiles://parks/5/10").syncThrow =
      some (.typeError "Cannot read properties of null") :=
  ⟨C7_url_resolution.1 "parks" "5" "10" "12" (by decide) (by decide) (by decide)
      (by decide) (by decide) (by decide) (by decide) (by decide),
    (C7_url_resolution.2.1 "mbtiles://parks/5/10" envW "/tiles/" (by decide)).1⟩

end MbglRenderer
